import Mathlib

/-!
Verification of the Agora Python example client
(`examples/python/client.py`) and of the relay-side message-queue
protocol it invokes, against the repository's specification.

The client is shallowly embedded: each HTTP-calling method becomes a
pure Lean function that receives the `HttpResponse` the transport would
deliver and returns the call's result together with the client state
after the call (Python exceptions become `Except.error`; the returned
state records exactly the mutations of `self` the method performed
before raising, if any).  The request a method issues is embedded
separately as a `...Request` function, so that "no HTTP request is
made" is expressible.  The `requests` library and the `cryptography`
library are external collaborators: `Response.raise_for_status` is
modelled with its documented behaviour (it raises exactly for the 4xx
and 5xx status ranges), `Response.json()` as an optional parsed body,
and key generation as a function of the DER byte strings the
cryptography library produces.  JSON numbers are modelled as integers
(no claim involves floating point).
-/

namespace Agora

/-- A JSON value as produced by `Response.json()` / consumed by the
`json=` argument of `requests`.  Objects keep field insertion order,
matching Python dicts. -/
inductive Json where
  | null
  | bool (b : Bool)
  | num (n : Int)
  | str (s : String)
  | arr (elems : List Json)
  | obj (fields : List (String × Json))

/-- Field lookup in a JSON object's field list (first match, as in a
Python dict built by `json.loads`, whose keys are unique). -/
def lookupField : List (String × Json) → String → Option Json
  | [], _ => none
  | (k1, v) :: rest, k => if k1 = k then some v else lookupField rest k

/-- Python truthiness (`if x:` / `if not x:`) of a JSON-decoded value:
`None`, `False`, `0`, `""`, `[]` and `\x7b\x7d` are falsy. -/
def Json.truthy : Json → Bool
  | .null => false
  | .bool b => b
  | .num n => n != 0
  | .str s => s != ""
  | .arr es => !es.isEmpty
  | .obj fs => !fs.isEmpty

mutual

/-- Python `str(x)` of a JSON-decoded value, as used by the f-string
`f"Bearer \x7bself._token\x7d"`: strings format as themselves, other
values as their Python representation (repr escaping of special
characters inside nested strings is not modelled; no claim involves
such strings). -/
def pyStr : Json → String
  | .str s => s
  | j => pyRepr j

/-- Python `repr(x)` of a JSON-decoded value. -/
def pyRepr : Json → String
  | .null => "None"
  | .bool true => "True"
  | .bool false => "False"
  | .num n => toString n
  | .str s => "\x27" ++ s ++ "\x27"
  | .arr es => "[" ++ pyReprArr es ++ "]"
  | .obj fs => "\x7b" ++ pyReprObj fs ++ "\x7d"

/-- Comma-separated `repr` of a Python list's elements. -/
def pyReprArr : List Json → String
  | [] => ""
  | [x] => pyRepr x
  | x :: y :: xs => pyRepr x ++ ", " ++ pyReprArr (y :: xs)

/-- Comma-separated `repr` of a Python dict's entries. -/
def pyReprObj : List (String × Json) → String
  | [] => ""
  | [(k, v)] => "\x27" ++ k ++ "\x27: " ++ pyRepr v
  | (k, v) :: y :: xs => "\x27" ++ k ++ "\x27: " ++ pyRepr v ++ ", " ++ pyReprObj (y :: xs)

end

/-- The exceptions the client code can raise, by Python class:
`requests.HTTPError` from `raise_for_status`, a JSON decode error from
`resp.json()`, `KeyError` from `data["token"]` / `data["expiresAt"]`,
`TypeError`/`AttributeError` from indexing or `.get` on a non-dict
body, and the `RuntimeError("Not registered. ...")` of
`_auth_headers`. -/
inductive AgoraError where
  | httpError (status : Nat)
  | jsonDecodeError
  | keyError (key : String)
  | typeError
  | runtimeError (msg : String)
deriving DecidableEq

/-- An HTTP response as the client observes it through `requests`:
the final status code and, when the payload parses as JSON, the parsed
body (`none` when `resp.json()` would raise). -/
structure HttpResponse where
  status : Nat
  body : Option Json

/-- HTTP method of a request the client issues. -/
inductive Method where
  | get
  | post
  | delete
deriving DecidableEq

/-- An HTTP request as the client builds it: method, full URL, the
explicit `headers=` dict passed to `requests` (empty when the call
passes none), and the `json=` body if any. -/
structure HttpRequest where
  method : Method
  url : String
  headers : List (String × String)
  body : Option Json

/-- `KeyPair` dataclass: hex-encoded SPKI DER public key and
hex-encoded PKCS8 DER private key. -/
structure KeyPair where
  public_key : String
  private_key : String

/-- Lower-case hex digit of a value below 16, as produced by Python
`bytes.hex()`. -/
def hexChar (n : Nat) : Char :=
  if n < 10 then Char.ofNat (48 + n) else Char.ofNat (87 + n)

/-- Python `bytes.hex()`: two lower-case hex digits per byte, in
order. -/
def bytesToHex : List Nat → String
  | [] => ""
  | b :: bs => String.mk [hexChar (b / 16 % 16), hexChar (b % 16)] ++ bytesToHex bs

/-- `generate_key_pair`: the Ed25519 key generation itself is done by
the external `cryptography` library; its outputs — the DER serialization
`public_bytes(Encoding.DER, PublicFormat.SubjectPublicKeyInfo)` of the
public key and `private_bytes(Encoding.DER, PrivateFormat.PKCS8,
NoEncryption())` of the private key — enter the model as the byte lists
`pubDer` and `privDer`.  The function hex-encodes both with
`bytes.hex()`. -/
def generate_key_pair (pubDer privDer : List Nat) : KeyPair :=
  { public_key := bytesToHex pubDer, private_key := bytesToHex privDer }

/-- The state of an `AgoraClient` instance: the dataclass fields
`relay_url`, `key_pair`, `name` and the session fields `_token`,
`_expires_at` (both `None` initially).  `_token` and `_expires_at`
hold whatever JSON values registration stored (the code performs no
runtime type check on them).  The `_session` field is the HTTP
transport and carries no protocol state of its own. -/
structure AgoraClient where
  relay_url : String
  key_pair : KeyPair
  name : Option String
  _token : Option Json
  _expires_at : Option Json

/-- Python truthiness of the optional `name : str | None` dataclass
field, as tested by `if self.name:`. -/
def optStrTruthy : Option String → Bool
  | none => false
  | some s => s != ""

/-- `requests.Response.raise_for_status`: raises `HTTPError` exactly
when the status code is in the client-error range 400–499 or the
server-error range 500–599, and otherwise returns normally. -/
def raise_for_status (status : Nat) : Except AgoraError Unit :=
  if 400 ≤ status ∧ status < 600 then .error (.httpError status) else .ok ()

/-- The `RuntimeError` raised by `_auth_headers`, with the source's
message. -/
def notRegisteredError : AgoraError :=
  .runtimeError "Not registered.  Call register() first."

/-- `AgoraClient._auth_headers`: raises `RuntimeError` when `_token`
is falsy (never set, cleared by `disconnect`, or a falsy stored
value), and otherwise returns the dict holding exactly the
`Authorization: Bearer <token>` header. -/
def _auth_headers (c : AgoraClient) : Except AgoraError (List (String × String)) :=
  match c._token with
  | none => .error notRegisteredError
  | some j =>
      if j.truthy then .ok [("Authorization", "Bearer " ++ pyStr j)]
      else .error notRegisteredError

/-- The request body `register` builds: `publicKey` and `privateKey`
always (the raw private key is transmitted), then `name` when
`self.name` is truthy, then `metadata` when the argument is truthy
(a non-empty dict). -/
def registerBody (c : AgoraClient) (metadata : Option (List (String × Json))) :
    List (String × Json) :=
  [("publicKey", .str c.key_pair.public_key),
   ("privateKey", .str c.key_pair.private_key)]
  ++ (match c.name with
      | some n => if n = "" then [] else [("name", .str n)]
      | none => [])
  ++ (match metadata with
      | some m => if m.isEmpty then [] else [("metadata", .obj m)]
      | none => [])

/-- The HTTP request `register` issues: `POST <relay_url>/v1/register`
with no explicit headers and the body above. -/
def registerRequest (c : AgoraClient) (metadata : Option (List (String × Json))) :
    HttpRequest :=
  { method := .post
  , url := c.relay_url ++ "/v1/register"
  , headers := []
  , body := some (.obj (registerBody c metadata)) }

/-- `AgoraClient.register` applied to the response of its POST:
`raise_for_status`, then `resp.json()`, then
`self._token = data["token"]`, `self._expires_at = data["expiresAt"]`,
`return data`.  The returned state reflects the assignments performed
before any raise (a `KeyError` on `"expiresAt"` occurs after `_token`
was already assigned). -/
def register (c : AgoraClient) (metadata : Option (List (String × Json)))
    (resp : HttpResponse) : Except AgoraError Json × AgoraClient :=
  match raise_for_status resp.status with
  | .error e => (.error e, c)
  | .ok _ =>
    match resp.body with
    | none => (.error .jsonDecodeError, c)
    | some data =>
      match data with
      | .obj fields =>
        match lookupField fields "token" with
        | none => (.error (.keyError "token"), c)
        | some tok =>
          let c1 := { c with _token := some tok }
          match lookupField fields "expiresAt" with
          | none => (.error (.keyError "expiresAt"), c1)
          | some exp => (.ok data, { c1 with _expires_at := some exp })
      | _ => (.error .typeError, c)

/-- The HTTP request `peers` issues, when `_auth_headers` does not
raise: `GET <relay_url>/v1/peers` with exactly the auth header. -/
def peersRequest (c : AgoraClient) : Except AgoraError HttpRequest :=
  match _auth_headers c with
  | .error e => .error e
  | .ok h =>
      .ok { method := .get, url := c.relay_url ++ "/v1/peers", headers := h, body := none }

/-- `AgoraClient.peers` applied to the response of its GET:
`_auth_headers` (may raise before any request), `raise_for_status`,
then `resp.json().get("peers", [])` — the default `[]` when the body
is a dict without a `"peers"` key, an `AttributeError` when the body
is not a dict.  No field of `self` is assigned on any path. -/
def peers (c : AgoraClient) (resp : HttpResponse) :
    Except AgoraError Json × AgoraClient :=
  match _auth_headers c with
  | .error e => (.error e, c)
  | .ok _ =>
    match raise_for_status resp.status with
    | .error e => (.error e, c)
    | .ok _ =>
      match resp.body with
      | none => (.error .jsonDecodeError, c)
      | some (.obj fields) =>
        (.ok ((lookupField fields "peers").getD (.arr [])), c)
      | some _ => (.error .typeError, c)

/-- The request body `send` builds: `to`, `type`, `payload` always,
then `inReplyTo` when the `in_reply_to` argument is truthy (a
non-`None`, non-empty string). -/
def sendBody (to_ message_type : String) (payload : Json)
    (in_reply_to : Option String) : List (String × Json) :=
  [("to", .str to_), ("type", .str message_type), ("payload", payload)]
  ++ (match in_reply_to with
      | some s => if s = "" then [] else [("inReplyTo", .str s)]
      | none => [])

/-- The HTTP request `send` issues, when `_auth_headers` does not
raise: `POST <relay_url>/v1/send` with exactly the auth header and the
body above. -/
def sendRequest (c : AgoraClient) (to_ message_type : String) (payload : Json)
    (in_reply_to : Option String) : Except AgoraError HttpRequest :=
  match _auth_headers c with
  | .error e => .error e
  | .ok h =>
      .ok { method := .post
          , url := c.relay_url ++ "/v1/send"
          , headers := h
          , body := some (.obj (sendBody to_ message_type payload in_reply_to)) }

/-- `AgoraClient.send` applied to the response of its POST:
`_auth_headers`, `raise_for_status`, `return resp.json()`.  No field
of `self` is assigned on any path. -/
def send (c : AgoraClient) (to_ message_type : String) (payload : Json)
    (in_reply_to : Option String) (resp : HttpResponse) :
    Except AgoraError Json × AgoraClient :=
  match _auth_headers c with
  | .error e => (.error e, c)
  | .ok _ =>
    match raise_for_status resp.status with
    | .error e => (.error e, c)
    | .ok _ =>
      match resp.body with
      | none => (.error .jsonDecodeError, c)
      | some data => (.ok data, c)

/-- The HTTP request `poll_messages` issues, when `_auth_headers` does
not raise: `GET <relay_url>/v1/messages` with exactly the auth
header. -/
def pollMessagesRequest (c : AgoraClient) : Except AgoraError HttpRequest :=
  match _auth_headers c with
  | .error e => .error e
  | .ok h =>
      .ok { method := .get, url := c.relay_url ++ "/v1/messages", headers := h, body := none }

/-- `AgoraClient.poll_messages` applied to the response of its GET:
`_auth_headers`, `raise_for_status`, then
`resp.json().get("messages", [])`.  No field of `self` is assigned on
any path. -/
def poll_messages (c : AgoraClient) (resp : HttpResponse) :
    Except AgoraError Json × AgoraClient :=
  match _auth_headers c with
  | .error e => (.error e, c)
  | .ok _ =>
    match raise_for_status resp.status with
    | .error e => (.error e, c)
    | .ok _ =>
      match resp.body with
      | none => (.error .jsonDecodeError, c)
      | some (.obj fields) =>
        (.ok ((lookupField fields "messages").getD (.arr [])), c)
      | some _ => (.error .typeError, c)

/-- The HTTP request `disconnect` issues, when `_auth_headers` does
not raise: `DELETE <relay_url>/v1/disconnect` with exactly the auth
header. -/
def disconnectRequest (c : AgoraClient) : Except AgoraError HttpRequest :=
  match _auth_headers c with
  | .error e => .error e
  | .ok h =>
      .ok { method := .delete, url := c.relay_url ++ "/v1/disconnect", headers := h, body := none }

/-- `AgoraClient.disconnect` applied to the response of its DELETE:
`_auth_headers`, `raise_for_status`, then `self._token = None` and
`self._expires_at = None`.  The response body is never read. -/
def disconnect (c : AgoraClient) (resp : HttpResponse) :
    Except AgoraError Unit × AgoraClient :=
  match _auth_headers c with
  | .error e => (.error e, c)
  | .ok _ =>
    match raise_for_status resp.status with
    | .error e => (.error e, c)
    | .ok _ => (.ok (), { c with _token := none, _expires_at := none })

/-- Modelled from the spec: the relay's `Message` record (§3) — the
relay server itself is not part of this repository's sources, only
this client of it is.  Fields follow the spec's
`\x7bid, from, to, type, payload, inReplyTo, enqueuedAt\x7d`; `from`
and `to` are rendered `sender` and `recipient` because `from` and `to`
are reserved words in Lean. -/
structure Message where
  id : String
  sender : String
  recipient : String
  type : String
  payload : Json
  inReplyTo : Option String
  enqueuedAt : Nat

/-- Modelled from the spec: the relay's Inbound Queue Store (§2, §3) —
a per-recipient-public-key FIFO queue of undelivered messages,
represented as an association list from public key to its ordered
queue (a key absent from the list has the empty queue). -/
def QueueStore := List (String × List Message)

/-- Modelled from the spec: the queue of a public key in the Inbound
Queue Store (empty when the key has no entry). -/
def getQueue : QueueStore → String → List Message
  | [], _ => []
  | (k1, q) :: rest, k => if k1 = k then q else getQueue rest k

/-- Modelled from the spec: replacing the queue of a public key in the
Inbound Queue Store. -/
def setQueue : QueueStore → String → List Message → QueueStore
  | [], k, q => [(k, q)]
  | (k1, q1) :: rest, k, q =>
      if k1 = k then (k, q) :: rest else (k1, q1) :: setQueue rest k q

/-- Modelled from the spec: the enqueue step of the Message Router's
`send` (§4.3) — the message is appended to its recipient's
InboundQueue (FIFO: queue order matches enqueue order). -/
def routerSend (qs : QueueStore) (m : Message) : QueueStore :=
  setQueue qs m.recipient (getQueue qs m.recipient ++ [m])

/-- Modelled from the spec: the Message Router's `poll` (§4.3) —
atomically drains and returns the caller's entire InboundQueue in FIFO
order, returning the empty list if none is pending; polling is
destructive. -/
def routerPoll (qs : QueueStore) (publicKey : String) : List Message × QueueStore :=
  (getQueue qs publicKey, setQueue qs publicKey [])

/-! Concrete sample values used by witnesses and counterexamples. -/

/-- A sample key pair (hex strings as stored in `KeyPair`). -/
def sampleKeyPair : KeyPair := { public_key := "302a00", private_key := "302e00" }

/-- A freshly constructed client: no session fields set. -/
def freshClient : AgoraClient :=
  { relay_url := "http://localhost:8080"
  , key_pair := sampleKeyPair
  , name := some "alice"
  , _token := none
  , _expires_at := none }

/-- A client holding a session token, as after a successful
registration that returned token `tok-1` and expiry `100`. -/
def regClient : AgoraClient :=
  { freshClient with _token := some (.str "tok-1"), _expires_at := some (.num 100) }

/-- A `404 Not Found` response with a JSON error body. -/
def resp404 : HttpResponse :=
  { status := 404, body := some (.obj [("error", .str "not found")]) }

/-- A successful registration response. -/
def resp200reg : HttpResponse :=
  { status := 200, body := some (.obj [("token", .str "tok-1"), ("expiresAt", .num 100)]) }

/-- A `300 Multiple Choices` response carrying a registration-shaped
JSON body.  `requests` returns a 300 response as-is (its redirect
handling only fires on 301/302/303/307/308 with a `Location` header),
and `raise_for_status` does not raise on it. -/
def resp300 : HttpResponse :=
  { status := 300, body := some (.obj [("token", .str "tok300"), ("expiresAt", .num 99)]) }

/-- A successful `send` response carrying a message id. -/
def resp200send : HttpResponse :=
  { status := 200, body := some (.obj [("messageId", .str "m-1")]) }

/-- A successful empty-bodied response, as for `disconnect`. -/
def resp204 : HttpResponse := { status := 204, body := none }

/-- A successful response whose JSON object body has neither a
`peers` nor a `messages` key. -/
def resp200bare : HttpResponse :=
  { status := 200, body := some (.obj [("ok", .bool true)]) }

/-- A first sample relayed message from `pkA` to `pkB`. -/
def sampleMsg1 : Message :=
  { id := "m-1", sender := "pkA", recipient := "pkB", type := "publish"
  , payload := .str "hello", inReplyTo := none, enqueuedAt := 1 }

/-- A second sample relayed message from `pkA` to `pkB`. -/
def sampleMsg2 : Message :=
  { id := "m-2", sender := "pkA", recipient := "pkB", type := "publish"
  , payload := .str "again", inReplyTo := some "m-1", enqueuedAt := 2 }

/-! Helper lemmas. -/

/-- Reading back the queue just written into the store. -/
theorem getQueue_setQueue_self (qs : QueueStore) (k : String) (q : List Message) :
    getQueue (setQueue qs k q) k = q := by
  induction qs with
  | nil => simp [setQueue, getQueue]
  | cons hd tl ih =>
      obtain ⟨k1, q1⟩ := hd
      by_cases hk : k1 = k
      · simp [setQueue, getQueue, hk]
      · simp [setQueue, getQueue, hk, ih]

/-! The claims. -/

/-- C2: for every pair of messages `m1` then `m2` sent from agent `a`
to agent `b` whose inbound queue is empty, the next poll by `b`
returns `[m1, m2]` in that order (the entire queue drained FIFO), and
a second immediate poll by `b` returns the empty list. -/
theorem send_send_poll_returns_fifo_then_empty (qs : QueueStore) (a b : String)
    (m1 m2 : Message) (hq : getQueue qs b = [])
    (h1s : m1.sender = a) (h2s : m2.sender = a)
    (h1r : m1.recipient = b) (h2r : m2.recipient = b) :
    (routerPoll (routerSend (routerSend qs m1) m2) b).1 = [m1, m2]
    ∧ (routerPoll (routerPoll (routerSend (routerSend qs m1) m2) b).2 b).1 = [] := by
  have hstep1 : routerSend qs m1 = setQueue qs b [m1] := by
    rw [routerSend, h1r, hq, List.nil_append]
  have hget1 : getQueue (routerSend qs m1) b = [m1] := by
    rw [hstep1, getQueue_setQueue_self]
  have hget2 : getQueue (routerSend (routerSend qs m1) m2) b = [m1, m2] := by
    rw [routerSend, h2r, hget1, getQueue_setQueue_self]
    rfl
  constructor
  · rw [routerPoll]
    exact hget2
  · rw [routerPoll, routerPoll]
    exact getQueue_setQueue_self _ _ _

/-- Witness for C2 at concrete inputs: empty store, `pkA` sends
`sampleMsg1` then `sampleMsg2` to `pkB`. -/
theorem send_send_poll_returns_fifo_then_empty_witness :
    getQueue ([] : QueueStore) "pkB" = []
    ∧ sampleMsg1.sender = "pkA" ∧ sampleMsg2.sender = "pkA"
    ∧ sampleMsg1.recipient = "pkB" ∧ sampleMsg2.recipient = "pkB"
    ∧ ((routerPoll (routerSend (routerSend ([] : QueueStore) sampleMsg1) sampleMsg2) "pkB").1
        = [sampleMsg1, sampleMsg2]
      ∧ (routerPoll (routerPoll (routerSend (routerSend ([] : QueueStore) sampleMsg1)
          sampleMsg2) "pkB").2 "pkB").1 = []) :=
  ⟨rfl, rfl, rfl, rfl, rfl,
    send_send_poll_returns_fifo_then_empty ([] : QueueStore) "pkA" "pkB"
      sampleMsg1 sampleMsg2 rfl rfl rfl rfl rfl⟩

/-- C10: `peers`, `send` and `poll_messages` never modify the client's
state: on every path, successful or failed, the state after the call
(including `key_pair`, `name`, `_token` and `_expires_at`) equals the
state before it. -/
theorem query_operations_preserve_state (c : AgoraClient) (resp : HttpResponse)
    (to_ message_type : String) (payload : Json) (in_reply_to : Option String) :
    (peers c resp).2 = c
    ∧ (send c to_ message_type payload in_reply_to resp).2 = c
    ∧ (poll_messages c resp).2 = c := by
  refine ⟨?_, ?_, ?_⟩
  · unfold peers
    cases _auth_headers c with
    | error e => rfl
    | ok hs =>
        cases raise_for_status resp.status with
        | error e => rfl
        | ok u =>
            cases resp.body with
            | none => rfl
            | some j => cases j <;> rfl
  · unfold send
    cases _auth_headers c with
    | error e => rfl
    | ok hs =>
        cases raise_for_status resp.status with
        | error e => rfl
        | ok u =>
            cases resp.body with
            | none => rfl
            | some j => rfl
  · unfold poll_messages
    cases _auth_headers c with
    | error e => rfl
    | ok hs =>
        cases raise_for_status resp.status with
        | error e => rfl
        | ok u =>
            cases resp.body with
            | none => rfl
            | some j => cases j <;> rfl

/-- C1 (amended): for every client operation (`register`, `peers`,
`send`, `poll_messages`, `disconnect`), if the HTTP response has a 4xx
or 5xx status — the statuses `raise_for_status` treats as errors — the
call raises and propagates the failure to the caller with no retry,
and the client's session state is not mutated; in particular a failed
`register` leaves `_token` and `_expires_at` exactly as they were
before the call. -/
theorem error_status_aborts_without_mutation (c : AgoraClient)
    (metadata : Option (List (String × Json))) (resp : HttpResponse)
    (to_ message_type : String) (payload : Json) (in_reply_to : Option String)
    (hlo : 400 ≤ resp.status) (hhi : resp.status < 600) :
    ((∃ e, (register c metadata resp).1 = .error e) ∧ (register c metadata resp).2 = c)
    ∧ ((∃ e, (peers c resp).1 = .error e) ∧ (peers c resp).2 = c)
    ∧ ((∃ e, (send c to_ message_type payload in_reply_to resp).1 = .error e)
        ∧ (send c to_ message_type payload in_reply_to resp).2 = c)
    ∧ ((∃ e, (poll_messages c resp).1 = .error e) ∧ (poll_messages c resp).2 = c)
    ∧ ((∃ e, (disconnect c resp).1 = .error e) ∧ (disconnect c resp).2 = c) := by
  have hrs : raise_for_status resp.status = .error (.httpError resp.status) := by
    rw [raise_for_status, if_pos ⟨hlo, hhi⟩]
  refine ⟨?_, ?_, ?_, ?_, ?_⟩
  · rw [register, hrs]
    exact ⟨⟨_, rfl⟩, rfl⟩
  · rw [peers]
    cases _auth_headers c with
    | error e => exact ⟨⟨_, rfl⟩, rfl⟩
    | ok hs => rw [hrs]; exact ⟨⟨_, rfl⟩, rfl⟩
  · rw [send]
    cases _auth_headers c with
    | error e => exact ⟨⟨_, rfl⟩, rfl⟩
    | ok hs => rw [hrs]; exact ⟨⟨_, rfl⟩, rfl⟩
  · rw [poll_messages]
    cases _auth_headers c with
    | error e => exact ⟨⟨_, rfl⟩, rfl⟩
    | ok hs => rw [hrs]; exact ⟨⟨_, rfl⟩, rfl⟩
  · rw [disconnect]
    cases _auth_headers c with
    | error e => exact ⟨⟨_, rfl⟩, rfl⟩
    | ok hs => rw [hrs]; exact ⟨⟨_, rfl⟩, rfl⟩

/-- Witness for C1 at concrete inputs: a registered client receiving a
`404` response on each operation. -/
theorem error_status_aborts_without_mutation_witness :
    (400 ≤ resp404.status ∧ resp404.status < 600)
    ∧ (((∃ e, (register regClient none resp404).1 = .error e)
        ∧ (register regClient none resp404).2 = regClient)
      ∧ ((∃ e, (peers regClient resp404).1 = .error e)
        ∧ (peers regClient resp404).2 = regClient)
      ∧ ((∃ e, (send regClient "pkB" "publish" (.str "hi") none resp404).1 = .error e)
        ∧ (send regClient "pkB" "publish" (.str "hi") none resp404).2 = regClient)
      ∧ ((∃ e, (poll_messages regClient resp404).1 = .error e)
        ∧ (poll_messages regClient resp404).2 = regClient)
      ∧ ((∃ e, (disconnect regClient resp404).1 = .error e)
        ∧ (disconnect regClient resp404).2 = regClient)) :=
  ⟨⟨by decide, by decide⟩,
    error_status_aborts_without_mutation regClient none resp404
      "pkB" "publish" (.str "hi") none (by decide) (by decide)⟩

/-- Counterexample to C1 as stated: a `300 Multiple Choices` response
is not 2xx, yet `raise_for_status` raises only for 4xx/5xx, so a
`register` receiving status 300 with a registration-shaped body does
not raise — it succeeds and mutates the session state, storing the
token from the body. -/
theorem status300_register_succeeds_and_mutates :
    (resp300.status < 200 ∨ 300 ≤ resp300.status)
    ∧ (register freshClient none resp300).1
        = .ok (.obj [("token", .str "tok300"), ("expiresAt", .num 99)])
    ∧ (register freshClient none resp300).2._token = some (.str "tok300")
    ∧ (register freshClient none resp300).2._expires_at = some (.num 99)
    ∧ freshClient._token = none ∧ freshClient._expires_at = none :=
  ⟨Or.inr (by decide), rfl, rfl, rfl, rfl, rfl⟩

/-- C3: the request `register` sends is a POST to `/v1/register` whose
body carries the client's public key — the hex encoding of the SPKI
DER bytes the key generation produced — under `publicKey`, and the raw
private key — the hex encoding of its PKCS8 DER bytes — under
`privateKey` (the private key is transmitted to the relay); `name` and
`metadata` appear in the body only when set. -/
theorem register_transmits_hex_der_keys (pubDer privDer : List Nat) (c : AgoraClient)
    (metadata : Option (List (String × Json)))
    (hk : c.key_pair = generate_key_pair pubDer privDer) :
    (registerRequest c metadata).method = .post
    ∧ (registerRequest c metadata).url = c.relay_url ++ "/v1/register"
    ∧ (registerRequest c metadata).headers = []
    ∧ (registerRequest c metadata).body = some (.obj (registerBody c metadata))
    ∧ lookupField (registerBody c metadata) "publicKey"
        = some (.str (bytesToHex pubDer))
    ∧ lookupField (registerBody c metadata) "privateKey"
        = some (.str (bytesToHex privDer))
    ∧ (∀ v, lookupField (registerBody c metadata) "name" = some v →
        ∃ n, c.name = some n ∧ n ≠ "" ∧ v = .str n)
    ∧ (∀ v, lookupField (registerBody c metadata) "metadata" = some v →
        ∃ m, metadata = some m ∧ m ≠ [] ∧ v = .obj m) := by
  refine ⟨rfl, rfl, rfl, rfl, ?_, ?_, ?_, ?_⟩
  · simp [registerBody, lookupField, hk, generate_key_pair]
  · simp [registerBody, lookupField, hk, generate_key_pair]
  · intro v hv
    cases hn : c.name with
    | none =>
        exfalso
        cases hm : metadata with
        | none => simp [registerBody, lookupField, hn, hm] at hv
        | some m =>
            by_cases hme : m.isEmpty
            · simp [registerBody, lookupField, hn, hm, hme] at hv
            · simp [registerBody, lookupField, hn, hm, hme] at hv
    | some n =>
        by_cases hne : n = ""
        · exfalso
          cases hm : metadata with
          | none => simp [registerBody, lookupField, hn, hne, hm] at hv
          | some m =>
              by_cases hme : m.isEmpty
              · simp [registerBody, lookupField, hn, hne, hm, hme] at hv
              · simp [registerBody, lookupField, hn, hne, hm, hme] at hv
        · refine ⟨n, rfl, hne, ?_⟩
          simp [registerBody, lookupField, hn, hne] at hv
          exact hv.symm
  · intro v hv
    cases hm : metadata with
    | none =>
        exfalso
        cases hn : c.name with
        | none => simp [registerBody, lookupField, hn, hm] at hv
        | some n =>
            by_cases hne : n = ""
            · simp [registerBody, lookupField, hn, hne, hm] at hv
            · simp [registerBody, lookupField, hn, hne, hm] at hv
    | some m =>
        by_cases hme : m.isEmpty
        · exfalso
          rw [List.isEmpty_iff] at hme
          cases hn : c.name with
          | none => simp [registerBody, lookupField, hn, hm, hme] at hv
          | some n =>
              by_cases hne : n = ""
              · simp [registerBody, lookupField, hn, hne, hm, hme] at hv
              · simp [registerBody, lookupField, hn, hne, hm, hme] at hv
        · refine ⟨m, rfl, by simpa [List.isEmpty_iff] using hme, ?_⟩
          cases hn : c.name with
          | none =>
              simp [registerBody, lookupField, hn, hm, hme] at hv
              exact hv.symm
          | some n =>
              by_cases hne : n = ""
              · simp [registerBody, lookupField, hn, hne, hm, hme] at hv
                exact hv.symm
              · simp [registerBody, lookupField, hn, hne, hm, hme] at hv
                exact hv.symm

/-- Witness for C3 at concrete inputs: a client whose key pair was
generated from the DER byte lists `[48, 42, 0]` and `[48, 46, 0]`,
registering with a one-entry metadata dict. -/
theorem register_transmits_hex_der_keys_witness :
    ({ freshClient with key_pair := generate_key_pair [48, 42, 0] [48, 46, 0] }
        : AgoraClient).key_pair = generate_key_pair [48, 42, 0] [48, 46, 0]
    ∧ lookupField
        (registerBody { freshClient with key_pair := generate_key_pair [48, 42, 0] [48, 46, 0] }
          (some [("capabilities", .arr [.str "summarization"])]))
        "publicKey" = some (.str (bytesToHex [48, 42, 0])) :=
  ⟨rfl,
    (register_transmits_hex_der_keys [48, 42, 0] [48, 46, 0]
      { freshClient with key_pair := generate_key_pair [48, 42, 0] [48, 46, 0] }
      (some [("capabilities", .arr [.str "summarization"])]) rfl).2.2.2.2.1⟩

/-- C4: whenever one of the authenticated operations (`peers`, `send`,
`poll_messages`, `disconnect`) issues its request, the explicit header
dict of that request is exactly the single entry
`Authorization: Bearer <token>` built from the stored `_token` (for a
stored string token `t`, literally `Bearer t`). -/
theorem authenticated_requests_bear_stored_token (c : AgoraClient) (j : Json)
    (to_ message_type : String) (payload : Json) (in_reply_to : Option String)
    (ht : c._token = some j) (htr : j.truthy = true) :
    peersRequest c
      = .ok { method := .get, url := c.relay_url ++ "/v1/peers"
            , headers := [("Authorization", "Bearer " ++ pyStr j)], body := none }
    ∧ sendRequest c to_ message_type payload in_reply_to
      = .ok { method := .post, url := c.relay_url ++ "/v1/send"
            , headers := [("Authorization", "Bearer " ++ pyStr j)]
            , body := some (.obj (sendBody to_ message_type payload in_reply_to)) }
    ∧ pollMessagesRequest c
      = .ok { method := .get, url := c.relay_url ++ "/v1/messages"
            , headers := [("Authorization", "Bearer " ++ pyStr j)], body := none }
    ∧ disconnectRequest c
      = .ok { method := .delete, url := c.relay_url ++ "/v1/disconnect"
            , headers := [("Authorization", "Bearer " ++ pyStr j)], body := none }
    ∧ (∀ t, j = .str t → pyStr j = t) := by
  have ha : _auth_headers c = .ok [("Authorization", "Bearer " ++ pyStr j)] := by
    rw [_auth_headers, ht]
    simp [htr]
  refine ⟨?_, ?_, ?_, ?_, ?_⟩
  · rw [peersRequest, ha]
  · rw [sendRequest, ha]
  · rw [pollMessagesRequest, ha]
  · rw [disconnectRequest, ha]
  · intro t hjt
    rw [hjt, pyStr]

/-- Witness for C4 at concrete inputs: the registered client holding
the string token `tok-1`. -/
theorem authenticated_requests_bear_stored_token_witness :
    regClient._token = some (.str "tok-1")
    ∧ (Json.str "tok-1").truthy = true
    ∧ peersRequest regClient
      = .ok { method := .get, url := regClient.relay_url ++ "/v1/peers"
            , headers := [("Authorization", "Bearer " ++ pyStr (.str "tok-1"))]
            , body := none }
    ∧ pyStr (.str "tok-1") = "tok-1" :=
  ⟨rfl, by decide,
    (authenticated_requests_bear_stored_token regClient (.str "tok-1")
      "pkB" "publish" (.str "hi") none rfl (by decide)).1,
    (authenticated_requests_bear_stored_token regClient (.str "tok-1")
      "pkB" "publish" (.str "hi") none rfl (by decide)).2.2.2.2 "tok-1" rfl⟩

/-- C5: after a successful `disconnect` call the client's stored token
and expiry are cleared to `None`, so the session is invalidated on the
client: every further authenticated call raises the not-registered
`RuntimeError` (issuing no request) rather than reusing the old
token. -/
theorem disconnect_success_clears_session (c : AgoraClient) (resp : HttpResponse)
    (to_ message_type : String) (payload : Json) (in_reply_to : Option String)
    (h : (disconnect c resp).1 = .ok ()) :
    (disconnect c resp).2._token = none
    ∧ (disconnect c resp).2._expires_at = none
    ∧ peersRequest (disconnect c resp).2 = .error notRegisteredError
    ∧ sendRequest (disconnect c resp).2 to_ message_type payload in_reply_to
        = .error notRegisteredError
    ∧ pollMessagesRequest (disconnect c resp).2 = .error notRegisteredError
    ∧ disconnectRequest (disconnect c resp).2 = .error notRegisteredError := by
  have h2 : (disconnect c resp).2 = { c with _token := none, _expires_at := none } := by
    cases ha : _auth_headers c with
    | error e => rw [disconnect, ha] at h; simp at h
    | ok hs =>
        cases hr : raise_for_status resp.status with
        | error e => rw [disconnect, ha, hr] at h; simp at h
        | ok u => rw [disconnect, ha, hr]
  rw [h2]
  exact ⟨rfl, rfl, rfl, rfl, rfl, rfl⟩

/-- Witness for C5 at concrete inputs: the registered client
disconnecting with a `204` response. -/
theorem disconnect_success_clears_session_witness :
    (disconnect regClient resp204).1 = .ok ()
    ∧ (disconnect regClient resp204).2._token = none
    ∧ (disconnect regClient resp204).2._expires_at = none
    ∧ peersRequest (disconnect regClient resp204).2 = .error notRegisteredError :=
  ⟨rfl,
    (disconnect_success_clears_session regClient resp204
      "pkB" "publish" (.str "hi") none rfl).1,
    (disconnect_success_clears_session regClient resp204
      "pkB" "publish" (.str "hi") none rfl).2.1,
    (disconnect_success_clears_session regClient resp204
      "pkB" "publish" (.str "hi") none rfl).2.2.1⟩

/-- C6 (amended): for every `send(to, message_type, payload,
in_reply_to)` call, the request body contains exactly the fields `to`,
`type`, `payload`, and additionally `inReplyTo` if and only if a
non-empty `in_reply_to` value was supplied (the code's `if
in_reply_to:` truthiness test drops an empty string); on success the
call returns the relay's JSON response — the response documented by
the wire contract to contain `messageId`. -/
theorem send_body_fields_and_result (c : AgoraClient) (to_ message_type : String)
    (payload : Json) (in_reply_to : Option String) (resp : HttpResponse) :
    lookupField (sendBody to_ message_type payload in_reply_to) "to" = some (.str to_)
    ∧ lookupField (sendBody to_ message_type payload in_reply_to) "type"
        = some (.str message_type)
    ∧ lookupField (sendBody to_ message_type payload in_reply_to) "payload" = some payload
    ∧ ((sendBody to_ message_type payload in_reply_to).map Prod.fst
          = ["to", "type", "payload"]
        ∨ (sendBody to_ message_type payload in_reply_to).map Prod.fst
          = ["to", "type", "payload", "inReplyTo"])
    ∧ (∀ s, in_reply_to = some s → s ≠ "" →
        lookupField (sendBody to_ message_type payload in_reply_to) "inReplyTo"
          = some (.str s))
    ∧ (∀ v, lookupField (sendBody to_ message_type payload in_reply_to) "inReplyTo"
          = some v → ∃ s, in_reply_to = some s ∧ s ≠ "" ∧ v = .str s)
    ∧ (∀ d, (send c to_ message_type payload in_reply_to resp).1 = .ok d →
        resp.body = some d) := by
  refine ⟨?_, ?_, ?_, ?_, ?_, ?_, ?_⟩
  · simp [sendBody, lookupField]
  · simp [sendBody, lookupField]
  · simp [sendBody, lookupField]
  · cases hi : in_reply_to with
    | none => left; simp [sendBody]
    | some s =>
        by_cases hse : s = ""
        · left; simp [sendBody, hse]
        · right; simp [sendBody, hse]
  · intro s hs hse
    simp [sendBody, hs, hse, lookupField]
  · intro v hv
    cases hi : in_reply_to with
    | none =>
        exfalso
        simp [sendBody, hi, lookupField] at hv
    | some s =>
        by_cases hse : s = ""
        · exfalso
          simp [sendBody, hi, hse, lookupField] at hv
        · refine ⟨s, rfl, hse, ?_⟩
          simp [sendBody, hi, hse, lookupField] at hv
          exact hv.symm
  · intro d hd
    cases ha : _auth_headers c with
    | error e => rw [send, ha] at hd; simp at hd
    | ok hs =>
        cases hr : raise_for_status resp.status with
        | error e => rw [send, ha, hr] at hd; simp at hd
        | ok u =>
            cases hb : resp.body with
            | none => rw [send, ha, hr, hb] at hd; simp at hd
            | some data =>
                rw [send, ha, hr, hb] at hd
                simp at hd
                rw [hd]

/-- Witness for C6 at concrete inputs: a registered client sending
with a non-empty `in_reply_to` and receiving a `messageId`
response. -/
theorem send_body_fields_and_result_witness :
    ((some "m-0" : Option String) = some "m-0" ∧ "m-0" ≠ "")
    ∧ lookupField (sendBody "pkB" "publish" (.str "hi") (some "m-0")) "inReplyTo"
        = some (.str "m-0")
    ∧ (send regClient "pkB" "publish" (.str "hi") (some "m-0") resp200send).1
        = .ok (.obj [("messageId", .str "m-1")])
    ∧ resp200send.body = some (.obj [("messageId", .str "m-1")]) :=
  ⟨⟨rfl, by decide⟩,
    (send_body_fields_and_result regClient "pkB" "publish" (.str "hi") (some "m-0")
      resp200send).2.2.2.2.1 "m-0" rfl (by decide),
    rfl,
    (send_body_fields_and_result regClient "pkB" "publish" (.str "hi") (some "m-0")
      resp200send).2.2.2.2.2.2 (.obj [("messageId", .str "m-1")]) rfl⟩

/-- C6 counterexample to the claim as stated: the supplied value
`in_reply_to = ""` does not produce an `inReplyTo` field — the code's
`if in_reply_to:` is a truthiness test, so the "if" direction of the
claimed "if and only if an `in_reply_to` value was supplied"
fails. -/
theorem empty_in_reply_to_supplied_but_omitted :
    (some "" : Option String) ≠ none
    ∧ lookupField (sendBody "pkB" "publish" (.str "hi") (some "")) "inReplyTo" = none
    ∧ sendBody "pkB" "publish" (.str "hi") (some "")
        = [("to", .str "pkB"), ("type", .str "publish"), ("payload", .str "hi")] :=
  ⟨by decide, rfl, rfl⟩

/-- Characterization of `register` on the success path: with a
non-error status, an object body, and both `token` and `expiresAt`
present, the call returns the body and the state with both session
fields stored. -/
theorem register_success_eq (c : AgoraClient)
    (metadata : Option (List (String × Json))) (resp : HttpResponse)
    (fields : List (String × Json)) (tok exp : Json) (u : Unit)
    (hr : raise_for_status resp.status = .ok u)
    (hb : resp.body = some (.obj fields))
    (hft : lookupField fields "token" = some tok)
    (hfe : lookupField fields "expiresAt" = some exp) :
    register c metadata resp
      = (.ok (.obj fields), { c with _token := some tok, _expires_at := some exp }) := by
  rw [register, hr, hb]
  simp only [hft, hfe]

/-- C7: after a successful `register` call the stored `_token` equals
the response's `token` field, the stored `_expires_at` equals the
response's `expiresAt` field, the other fields of the client are
untouched, and `register` returns the full response object. -/
theorem register_success_stores_token_and_expiry (c : AgoraClient)
    (metadata : Option (List (String × Json))) (resp : HttpResponse) (d : Json)
    (h : (register c metadata resp).1 = .ok d) :
    resp.body = some d
    ∧ ∃ fields tok exp, d = .obj fields
        ∧ lookupField fields "token" = some tok
        ∧ lookupField fields "expiresAt" = some exp
        ∧ (register c metadata resp).2._token = some tok
        ∧ (register c metadata resp).2._expires_at = some exp
        ∧ (register c metadata resp).2.relay_url = c.relay_url
        ∧ (register c metadata resp).2.key_pair = c.key_pair
        ∧ (register c metadata resp).2.name = c.name := by
  cases hr : raise_for_status resp.status with
  | error e => rw [register, hr] at h; simp at h
  | ok u =>
      cases hb : resp.body with
      | none => rw [register, hr, hb] at h; simp at h
      | some data =>
          cases data with
          | null => rw [register, hr, hb] at h; simp at h
          | bool b => rw [register, hr, hb] at h; simp at h
          | num n => rw [register, hr, hb] at h; simp at h
          | str s => rw [register, hr, hb] at h; simp at h
          | arr es => rw [register, hr, hb] at h; simp at h
          | obj fields =>
              cases hft : lookupField fields "token" with
              | none => rw [register, hr, hb] at h; simp [hft] at h
              | some tok =>
                  cases hfe : lookupField fields "expiresAt" with
                  | none => rw [register, hr, hb] at h; simp [hft, hfe] at h
                  | some exp =>
                      have he := register_success_eq c metadata resp fields tok exp u
                        hr hb hft hfe
                      rw [he] at h ⊢
                      simp at h
                      subst h
                      exact ⟨rfl, fields, tok, exp, rfl, hft, hfe, rfl, rfl, rfl, rfl, rfl⟩

/-- Witness for C7 at concrete inputs: the fresh client registering
with a `200` response carrying `token` and `expiresAt`. -/
theorem register_success_stores_token_and_expiry_witness :
    (register freshClient none resp200reg).1
      = .ok (.obj [("token", .str "tok-1"), ("expiresAt", .num 100)])
    ∧ resp200reg.body = some (.obj [("token", .str "tok-1"), ("expiresAt", .num 100)])
    ∧ (register freshClient none resp200reg).2._token = some (.str "tok-1")
    ∧ (register freshClient none resp200reg).2._expires_at = some (.num 100) :=
  ⟨rfl,
    (register_success_stores_token_and_expiry freshClient none resp200reg
      (.obj [("token", .str "tok-1"), ("expiresAt", .num 100)]) rfl).1,
    rfl, rfl⟩

/-- C8: calling `peers`, `send`, `poll_messages` or `disconnect` when
no token is held raises the not-registered `RuntimeError` locally —
`_auth_headers` fails before any request is built, so no HTTP request
is issued — and leaves the state unchanged. -/
theorem calls_without_token_raise_and_issue_no_request (c : AgoraClient)
    (resp : HttpResponse) (to_ message_type : String) (payload : Json)
    (in_reply_to : Option String) (h : c._token = none) :
    peersRequest c = .error notRegisteredError
    ∧ sendRequest c to_ message_type payload in_reply_to = .error notRegisteredError
    ∧ pollMessagesRequest c = .error notRegisteredError
    ∧ disconnectRequest c = .error notRegisteredError
    ∧ (peers c resp).1 = .error notRegisteredError ∧ (peers c resp).2 = c
    ∧ (send c to_ message_type payload in_reply_to resp).1 = .error notRegisteredError
    ∧ (send c to_ message_type payload in_reply_to resp).2 = c
    ∧ (poll_messages c resp).1 = .error notRegisteredError
    ∧ (poll_messages c resp).2 = c
    ∧ (disconnect c resp).1 = .error notRegisteredError
    ∧ (disconnect c resp).2 = c := by
  have ha : _auth_headers c = .error notRegisteredError := by rw [_auth_headers, h]
  refine ⟨?_, ?_, ?_, ?_, ?_, ?_, ?_, ?_, ?_, ?_, ?_, ?_⟩
  · rw [peersRequest, ha]
  · rw [sendRequest, ha]
  · rw [pollMessagesRequest, ha]
  · rw [disconnectRequest, ha]
  · rw [peers, ha]
  · rw [peers, ha]
  · rw [send, ha]
  · rw [send, ha]
  · rw [poll_messages, ha]
  · rw [poll_messages, ha]
  · rw [disconnect, ha]
  · rw [disconnect, ha]

/-- Witness for C8 at concrete inputs: the fresh (never-registered)
client. -/
theorem calls_without_token_raise_and_issue_no_request_witness :
    freshClient._token = none
    ∧ peersRequest freshClient = .error notRegisteredError
    ∧ (peers freshClient resp204).1 = .error notRegisteredError
    ∧ (peers freshClient resp204).2 = freshClient :=
  ⟨rfl,
    (calls_without_token_raise_and_issue_no_request freshClient resp204
      "pkB" "publish" (.str "hi") none rfl).1,
    (calls_without_token_raise_and_issue_no_request freshClient resp204
      "pkB" "publish" (.str "hi") none rfl).2.2.2.2.1,
    (calls_without_token_raise_and_issue_no_request freshClient resp204
      "pkB" "publish" (.str "hi") none rfl).2.2.2.2.2.1⟩

/-- C9: on a successful 2xx response whose JSON object body lacks the
expected list key, `peers` returns the empty list when `peers` is
absent and `poll_messages` returns the empty list when `messages` is
absent, instead of failing (`dict.get` with default `[]`). -/
theorem missing_list_key_yields_empty_list (c : AgoraClient)
    (hdrs : List (String × String)) (resp : HttpResponse)
    (fields : List (String × Json))
    (ha : _auth_headers c = .ok hdrs)
    (hlo : 200 ≤ resp.status) (hhi : resp.status < 300)
    (hb : resp.body = some (.obj fields)) :
    (lookupField fields "peers" = none → (peers c resp).1 = .ok (.arr []))
    ∧ (lookupField fields "messages" = none →
        (poll_messages c resp).1 = .ok (.arr [])) := by
  have hrs : raise_for_status resp.status = .ok () := by
    rw [raise_for_status, if_neg (by omega)]
  constructor
  · intro hp
    rw [peers, ha, hrs, hb]
    simp [hp]
  · intro hm
    rw [poll_messages, ha, hrs, hb]
    simp [hm]

/-- Witness for C9 at concrete inputs: the registered client receiving
a `200` object body with neither key. -/
theorem missing_list_key_yields_empty_list_witness :
    _auth_headers regClient = .ok [("Authorization", "Bearer " ++ pyStr (.str "tok-1"))]
    ∧ (200 ≤ resp200bare.status ∧ resp200bare.status < 300)
    ∧ resp200bare.body = some (.obj [("ok", .bool true)])
    ∧ lookupField [("ok", .bool true)] "peers" = none
    ∧ lookupField [("ok", .bool true)] "messages" = none
    ∧ (peers regClient resp200bare).1 = .ok (.arr [])
    ∧ (poll_messages regClient resp200bare).1 = .ok (.arr []) :=
  ⟨rfl, ⟨by decide, by decide⟩, rfl, rfl, rfl,
    (missing_list_key_yields_empty_list regClient _ resp200bare [("ok", .bool true)]
      rfl (by decide) (by decide) rfl).1 rfl,
    (missing_list_key_yields_empty_list regClient _ resp200bare [("ok", .bool true)]
      rfl (by decide) (by decide) rfl).2 rfl⟩

end Agora
